import Mathlib

/-!
Verification of the mic_level_monitor repository's connection lifecycle and
publish policy, as a shallow embedding of the Python source.

The embedding follows `src/mic_level_monitor/mqtt/client.py` (class
`MQTTClient`), `src/mic_level_monitor/monitoring/processor.py` and
`src/main.py` (the monitoring loop and status-check loop, which are
near-identical in the two variants) and
`src/mic_level_monitor/audio/microphone.py` (`read_mic_level`).

Conventions of the embedding:
* Audio levels, thresholds, intervals and `time.time()` timestamps are
  modelled as rationals (a level is the arithmetic mean of absolute int16
  samples); `int(time.time())` values used for client-identity suffixes are
  naturals, rendered in decimal by `natToDecStr` exactly as the f-string
  `f"{client_id}_{int(time.time())}"` renders them.
* Broker/transport interactions are modelled by an explicit outcome
  parameter (`SendOutcome`): the paho `publish` call either returns
  `MQTT_ERR_SUCCESS`, returns a non-zero result code, or raises an
  exception; the Python `try`/`except` structure is translated faithfully.
* The thread-local `disconnected_count` variable of the status-check thread
  is lifted into an explicit `SystemState.probeFailures` field; the connect
  callback runs on the network thread and has no access to it, which the
  embedding reflects by leaving that field untouched.
* JSON payloads are modelled as a small JSON value type; `json.dumps`
  followed by `json.loads` is reflected by building and reading back the
  corresponding object value.
-/

/-- The outcome of one call of the underlying paho transport's `publish`:
the call returns `MQTT_ERR_SUCCESS`, returns a non-zero result code `rc`,
or raises an exception carrying message `msg`. -/
inductive SendOutcome where
  | ok : SendOutcome
  | errCode (rc : Nat) : SendOutcome
  | exn (msg : String) : SendOutcome
deriving DecidableEq, Repr

/-- State of an `MQTTClient` instance (`client.py`, `__init__`): the
connection flags, counters and last-message bookkeeping, plus the current
client identity handed to the transport (`client_id`; replaced on forced
reconnection). -/
structure ClientState where
  mqttConnected : Bool
  mqttReconnecting : Bool
  reconnectAttempts : Nat
  errorMessage : String
  mqttMessagesSent : Nat
  lastMessageTime : ℚ
  lastMessage : String
  running : Bool
  clientIdentity : String
deriving DecidableEq, Repr

/-- `MQTTClient.publish(topic, payload)` (`client.py` lines 123-144).
Returns the boolean result, the updated client state, and the list of
transport-level send attempts made by the call (`(topic, payload)` pairs).
If `mqtt_connected` is false it returns `False` immediately without touching
the transport.  Otherwise the transport publish is attempted; on
`MQTT_ERR_SUCCESS` the sent counter, last-message time and last message are
updated and `True` is returned; on a non-zero result code or an exception
only `error_message` is set and `False` is returned. -/
def clientPublish (cs : ClientState) (topic payload : String)
    (out : SendOutcome) (now : ℚ) :
    Bool × ClientState × List (String × String) :=
  if !cs.mqttConnected then
    (false, cs, [])
  else
    match out with
    | .ok =>
        (true,
         { cs with
            mqttMessagesSent := cs.mqttMessagesSent + 1,
            lastMessageTime := now,
            lastMessage := topic ++ ": " ++ payload },
         [(topic, payload)])
    | .errCode rc =>
        (false,
         { cs with errorMessage := "MQTT publish failed with code: " ++ toString rc },
         [(topic, payload)])
    | .exn m =>
        (false,
         { cs with errorMessage := "Error publishing to MQTT: " ++ m },
         [(topic, payload)])

/-- A JSON value, as produced by `json.dumps` on the payloads this program
builds (numbers, strings and objects suffice). -/
inductive Json where
  | num (q : ℚ) : Json
  | str (s : String) : Json
  | obj (fields : List (String × Json)) : Json

/-- A status message handed to the transport: topic, JSON payload, QoS and
retain flag. -/
structure StatusMsg where
  topic : String
  payload : Json
  qos : Nat
  retained : Bool

/-- The retained online announcement published from the connect callback:
topic `microphones/status`, payload `json.dumps({"status": "online"})`,
`qos=1`, `retain=True` (`client.py` lines 49-55). -/
def onlineStatusMsg : StatusMsg :=
  ⟨"microphones/status", .obj [("status", .str "online")], 1, true⟩

/-- The retained offline announcement attempted by `disconnect()` and set as
the will message: payload `json.dumps({"status": "offline"})`, `qos=1`,
`retain=True` (`client.py` lines 81-86 and 106-112). -/
def offlineStatusMsg : StatusMsg :=
  ⟨"microphones/status", .obj [("status", .str "offline")], 1, true⟩

/-- `MQTTClient.on_mqtt_connect` (`client.py` lines 40-63): on reason code 0
set `mqtt_connected`, clear `mqtt_reconnecting`, zero `reconnect_attempts`,
clear `error_message`, and publish the retained online status message (an
exception from that publish is caught and recorded in `error_message`).  On
a non-zero reason code clear `mqtt_connected` and record the failure.
Returns the updated state and the list of status messages handed to the
transport.  `onlinePubRaise` carries the exception message when the online
publish raises. -/
def on_mqtt_connect (cs : ClientState) (reasonCode : Nat)
    (onlinePubRaise : Option String) : ClientState × List StatusMsg :=
  if reasonCode = 0 then
    let c1 := { cs with
      mqttConnected := true,
      mqttReconnecting := false,
      reconnectAttempts := 0,
      errorMessage := "" }
    match onlinePubRaise with
    | none => (c1, [onlineStatusMsg])
    | some e =>
        ({ c1 with errorMessage := "Failed to publish online status: " ++ e },
         [onlineStatusMsg])
  else
    ({ cs with
        mqttConnected := false,
        errorMessage := "Failed to connect to MQTT broker: " ++ toString reasonCode },
     [])

/-- The client state together with the status-check thread's local
`disconnected_count` variable (`client.py` line 219) — the consecutive
probe-failure counter of the spec. -/
structure SystemState where
  client : ClientState
  probeFailures : Nat
deriving DecidableEq, Repr

/-- The connect callback as it acts on the whole system: it updates the
client fields; the status-check thread's local counter is unreachable from
the callback and therefore unchanged. -/
def systemOnConnect (sys : SystemState) (reasonCode : Nat)
    (onlinePubRaise : Option String) : SystemState × List StatusMsg :=
  let r := on_mqtt_connect sys.client reasonCode onlinePubRaise
  (⟨r.1, sys.probeFailures⟩, r.2)

/-- The transport-level (paho) state visible to `disconnect()`: whether the
network loop thread is running and whether the transport reports itself
connected (`is_connected()`). -/
structure TransportState where
  loopRunning : Bool
  connected : Bool
deriving DecidableEq, Repr

/-- `MQTTClient.disconnect()` (`client.py` lines 103-121): attempt once to
publish the retained offline status message (an exception is caught and
recorded in `error_message`), set `running = False`, stop the network loop,
and if the transport reports connected, disconnect it.  Returns the updated
client state, the updated transport state, and the number of offline-status
publish attempts made by the call.  `offlinePubRaise` carries the exception
message when the offline publish raises. -/
def clientDisconnect (cs : ClientState) (tr : TransportState)
    (offlinePubRaise : Option String) :
    ClientState × TransportState × Nat :=
  let c1 := match offlinePubRaise with
    | none => cs
    | some e => { cs with errorMessage := "Failed to publish offline status: " ++ e }
  let c2 := { c1 with running := false }
  let tr1 := { tr with loopRunning := false }
  let tr2 := if tr1.connected then { tr1 with connected := false } else tr1
  (c2, tr2, 1)

/-- Decimal rendering of a natural number, as the f-string
`f"..._{int(time.time())}"` renders the integer timestamp. -/
def natToDecStr (n : Nat) : String :=
  if n = 0 then "0" else ⟨(Nat.digits 10 n).reverse.map Nat.digitChar⟩

/-- The fresh client identity built by `force_reconnection`
(`client.py` line 168): `f"{self.config['mqtt']['client_id']}_{int(time.time())}"`. -/
def mkReconnectIdentity (clientId : String) (now : Nat) : String :=
  clientId ++ "_" ++ natToDecStr now

/-- `MQTTClient.force_reconnection` (`client.py` lines 146-207), happy path:
tear down the network loop and transport, clear `mqtt_connected`, set
`mqtt_reconnecting`, bump `reconnect_attempts`, recreate the transport with
a fresh time-suffixed client identity, and record the forcing message.
`clientId` is the configured base identity `config["mqtt"]["client_id"]`;
`now` is `int(time.time())` at the moment the new client is created. -/
def force_reconnection (cs : ClientState) (clientId : String) (now : Nat) :
    ClientState :=
  { cs with
    mqttConnected := false,
    mqttReconnecting := true,
    reconnectAttempts := cs.reconnectAttempts + 1,
    clientIdentity := mkReconnectIdentity clientId now,
    errorMessage :=
      "Forcing reconnection (attempt " ++ natToDecStr (cs.reconnectAttempts + 1) ++ ")..." }

/-- What one iteration of the status-check thread observes
(`client.py` lines 222-245): either the transport reports connected and the
ping publish has some outcome, or the transport reports not connected. -/
inductive ProbeObs where
  | ping (out : SendOutcome) : ProbeObs
  | notConnected : ProbeObs
deriving DecidableEq, Repr

/-- The value of `disconnected_count` after the observation step of one
probe iteration: reset to 0 on a successful ping, incremented on a rejected
ping, a ping exception, or a transport that reports not connected. -/
def probeCountAfter (count : Nat) (obs : ProbeObs) : Nat :=
  match obs with
  | .ping .ok => 0
  | .ping (.errCode _) => count + 1
  | .ping (.exn _) => count + 1
  | .notConnected => count + 1

/-- Externally visible events of one probe iteration: how many forced
reconnections it invoked and which error strings it surfaced through the
error callback. -/
structure ProbeEvents where
  reconnects : Nat
  errors : List String
deriving DecidableEq, Repr

/-- One iteration of `MQTTClient._status_check_thread`
(`client.py` lines 221-261): update the flags from the observation and
increment or reset `disconnected_count`; if the count reaches 3, clear
`mqtt_connected` and surface "Disconnected from MQTT broker"; if the count
is exactly 5, invoke `force_reconnection` and reset the count to 0. -/
def probeTick (sys : SystemState) (obs : ProbeObs) (clientId : String)
    (now : Nat) : SystemState × ProbeEvents :=
  let c := sys.client
  let c1 := match obs with
    | .ping .ok => { c with mqttConnected := true, mqttReconnecting := false }
    | .ping (.errCode _) => c
    | .ping (.exn _) => c
    | .notConnected => { c with mqttConnected := false }
  let n1 := probeCountAfter sys.probeFailures obs
  if 3 ≤ n1 then
    let c2 := { c1 with
      mqttConnected := false,
      errorMessage := "Disconnected from MQTT broker" }
    if n1 = 5 then
      let c3 := force_reconnection c2 clientId now
      (⟨c3, 0⟩, ⟨1, ["Disconnected from MQTT broker", c3.errorMessage]⟩)
    else
      (⟨c2, n1⟩, ⟨0, ["Disconnected from MQTT broker"]⟩)
  else
    (⟨c1, n1⟩, ⟨0, []⟩)

/-- `1 if level > threshold else 0` (`main.py` lines 701-702,
`processor.py` lines 144-145). -/
def micActive (level threshold : ℚ) : Nat :=
  if level > threshold then 1 else 0

/-- The per-channel publish decision of the monitoring loop:
`active != last_state or active == 1` (`main.py` lines 706-708,
`processor.py` lines 160 and 164). -/
def shouldPublish (active lastState : Nat) : Bool :=
  active != lastState || active == 1

/-- `read_mic_level(stream)` (`main.py` lines 543-557,
`microphone.py` lines 109-123): a successful read yields the level; a read
failure is caught inside the function, which records the error and returns
`0.0`.  Returns the level used for the tick and the recorded error, if
any. -/
def readMicLevel (r : Except String ℚ) : ℚ × Option String :=
  match r with
  | .ok l => (l, none)
  | .error e => (0, some ("Error reading microphone data: " ++ e))

/-- Monitor-loop state owned by the monitoring thread: the per-channel
last-published states and the externally visible error message. -/
structure MonitorState where
  leftLast : Nat
  rightLast : Nat
  errorMessage : String
deriving DecidableEq, Repr

/-- Inputs of one monitoring-loop iteration: the `mqtt_connected` flag read
by the tick, the raw capture results of the two channels, and — for the
loop's outer `except` branch — an exception raised by the body itself
(capture failures never raise: they are caught inside `read_mic_level`). -/
structure TickInput where
  connected : Bool
  leftRead : Except String ℚ
  rightRead : Except String ℚ
  exn : Option String

/-- Record the capture errors of a tick (left read first, then right) into
the externally visible error message. -/
def recordReadErrors (st : MonitorState) (lerr rerr : Option String) :
    MonitorState :=
  let st0 := match lerr with
    | some m => { st with errorMessage := m }
    | none => st
  match rerr with
  | some m => { st0 with errorMessage := m }
  | none => st0

/-- A channel message handed to the transport by `publish_mic_state`:
topic, state, level and timestamp. -/
structure PubMsg where
  topic : String
  state : Nat
  level : ℚ
  ts : ℚ
deriving DecidableEq, Repr

/-- One iteration of the monitoring loop (`main.py` lines 694-729,
`processor.py` lines 138-173): read both levels (read failures default to
level 0 and record the error), compute the active states, and — only when
`mqtt_connected` — run the per-channel publish decision; after each publish
attempt the channel's last-published state is assigned the current active
value unconditionally (the code does not consult the publish result).
Returns the new monitor state, the channel messages attempted this tick,
and the delay before the next tick: the configured check interval on the
normal path, 1 second only when the loop body itself raised (`exn`). -/
def monitorTick (st : MonitorState) (inp : TickInput)
    (threshold checkInterval : ℚ) (leftTopic rightTopic : String) (now : ℚ) :
    MonitorState × List PubMsg × ℚ :=
  match inp.exn with
  | some e => ({ st with errorMessage := "Error monitoring: " ++ e }, [], 1)
  | none =>
    let lr := readMicLevel inp.leftRead
    let rr := readMicLevel inp.rightRead
    let st1 := recordReadErrors st lr.2 rr.2
    let la := micActive lr.1 threshold
    let ra := micActive rr.1 threshold
    if inp.connected then
      let lPub : List PubMsg :=
        if shouldPublish la st1.leftLast then [⟨leftTopic, la, lr.1, now⟩] else []
      let lLast := if shouldPublish la st1.leftLast then la else st1.leftLast
      let rPub : List PubMsg :=
        if shouldPublish ra st1.rightLast then [⟨rightTopic, ra, rr.1, now⟩] else []
      let rLast := if shouldPublish ra st1.rightLast then ra else st1.rightLast
      ({ st1 with leftLast := lLast, rightLast := rLast }, lPub ++ rPub, checkInterval)
    else
      (st1, [], checkInterval)

/-- Field lookup in a JSON object, as `json.loads(...)["key"]` reads a
serialized object back. -/
def jsonLookup : List (String × Json) → String → Option Json
  | [], _ => none
  | (k, v) :: rest, key => if k = key then some v else jsonLookup rest key

/-- The channel-message payload built by `publish_mic_state`
(`main.py` lines 565-567, `processor.py` lines 121-123):
`json.dumps({"state": state, "level": float(level), "timestamp": time.time()})`. -/
def micPayload (state : Nat) (level ts : ℚ) : Json :=
  .obj [("state", .num state), ("level", .num level), ("timestamp", .num ts)]

/-- Parsing a channel-message payload back: read the `state`, `level` and
`timestamp` fields of the object as numbers. -/
def parseMicPayload : Json → Option (ℚ × ℚ × ℚ)
  | .obj fs =>
    match jsonLookup fs "state", jsonLookup fs "level", jsonLookup fs "timestamp" with
    | some (.num s), some (.num l), some (.num t) => some (s, l, t)
    | _, _, _ => none
  | _ => none

/-- The timestamp field of a parsed channel-message payload (0 when the
payload does not parse). -/
def micPayloadTimestamp (j : Json) : ℚ :=
  (parseMicPayload j).elim 0 (fun r => r.2.2)

/-- Claim C2: `publish` called while the client is not connected returns
failure without any transport send; `publish` never returns success unless
`mqtt_connected` held at the call; and only on success are `messagesSent`
and the last message updated. -/
theorem publish_requires_connected (cs : ClientState) (topic payload : String)
    (out : SendOutcome) (now : ℚ) :
    (cs.mqttConnected = false →
      clientPublish cs topic payload out now = (false, cs, [])) ∧
    ((clientPublish cs topic payload out now).1 = true →
      cs.mqttConnected = true ∧
      (clientPublish cs topic payload out now).2.1.mqttMessagesSent =
        cs.mqttMessagesSent + 1 ∧
      (clientPublish cs topic payload out now).2.1.lastMessage =
        topic ++ ": " ++ payload) := by
  constructor
  · intro h
    simp [clientPublish, h]
  · intro h
    by_cases hc : cs.mqttConnected
    · refine ⟨hc, ?_, ?_⟩ <;> cases out <;> simp_all [clientPublish]
    · simp [clientPublish, hc] at h

/-- Witness for `publish_requires_connected` at a concrete disconnected
state: the call returns failure, leaves the state unchanged and sends
nothing. -/
theorem publish_requires_connected_witness :
    clientPublish ⟨false, false, 0, "", 0, 0, "", true, "mic_monitor"⟩
        "microphones/left" "p" .ok 1 =
      (false, ⟨false, false, 0, "", 0, 0, "", true, "mic_monitor"⟩, []) :=
  (publish_requires_connected
      ⟨false, false, 0, "", 0, 0, "", true, "mic_monitor"⟩
      "microphones/left" "p" .ok 1).1 rfl

/-- Claim C10: whenever `publish` returns failure — not connected, broker
rejects the send, or an exception — the fields `mqtt_messages_sent`,
`last_message` and `last_message_time` are unchanged by the call. -/
theorem publish_failure_preserves_counters (cs : ClientState)
    (topic payload : String) (out : SendOutcome) (now : ℚ)
    (h : (clientPublish cs topic payload out now).1 = false) :
    (clientPublish cs topic payload out now).2.1.mqttMessagesSent =
      cs.mqttMessagesSent ∧
    (clientPublish cs topic payload out now).2.1.lastMessage =
      cs.lastMessage ∧
    (clientPublish cs topic payload out now).2.1.lastMessageTime =
      cs.lastMessageTime := by
  by_cases hc : cs.mqttConnected <;> cases out <;> simp_all [clientPublish]

/-- Witness for `publish_failure_preserves_counters` at a concrete connected
state whose transport send is rejected with result code 4. -/
theorem publish_failure_preserves_counters_witness :
    (clientPublish ⟨true, false, 0, "", 7, 3, "m", true, "mic_monitor"⟩
        "microphones/left" "p" (.errCode 4) 9).2.1.mqttMessagesSent = 7 ∧
    (clientPublish ⟨true, false, 0, "", 7, 3, "m", true, "mic_monitor"⟩
        "microphones/left" "p" (.errCode 4) 9).2.1.lastMessage = "m" ∧
    (clientPublish ⟨true, false, 0, "", 7, 3, "m", true, "mic_monitor"⟩
        "microphones/left" "p" (.errCode 4) 9).2.1.lastMessageTime = 3 :=
  publish_failure_preserves_counters
    ⟨true, false, 0, "", 7, 3, "m", true, "mic_monitor"⟩
    "microphones/left" "p" (.errCode 4) 9 rfl

/-- Claim C5 counterexample: a successful connection acknowledgment does
not reset the consecutive probe-failure counter.  At a concrete system
state whose status-check thread has counted 4 consecutive probe failures,
the connect callback with reason code 0 leaves the counter at 4, so the
claim that it is reset to 0 is false. -/
theorem onConnect_probe_counter_not_reset :
    ¬ ((systemOnConnect
        ⟨⟨false, true, 2, "err", 0, 0, "", true, "mic_monitor"⟩, 4⟩
        0 none).1.probeFailures = 0) := by
  simp [systemOnConnect, on_mqtt_connect]

/-- Claim C5 (amended): on every successful connection acknowledgment
(reason code 0) the connection manager resets `reconnectAttempts` to 0,
clears the reconnecting flag, becomes connected, clears `lastError` when
the online publish does not itself fail, and hands exactly one retained
online status message to the transport; the consecutive probe-failure
counter is left unchanged by the acknowledgment (it is reset only by a
later successful probe or by forced reconnection). -/
theorem onConnect_success_effects (sys : SystemState)
    (onlinePubRaise : Option String) :
    (systemOnConnect sys 0 onlinePubRaise).1.client.mqttConnected = true ∧
    (systemOnConnect sys 0 onlinePubRaise).1.client.mqttReconnecting = false ∧
    (systemOnConnect sys 0 onlinePubRaise).1.client.reconnectAttempts = 0 ∧
    (onlinePubRaise = none →
      (systemOnConnect sys 0 onlinePubRaise).1.client.errorMessage = "") ∧
    (systemOnConnect sys 0 onlinePubRaise).2 = [onlineStatusMsg] ∧
    (systemOnConnect sys 0 onlinePubRaise).1.probeFailures =
      sys.probeFailures := by
  cases onlinePubRaise <;> simp [systemOnConnect, on_mqtt_connect]

/-- Witness for `onConnect_success_effects` at a concrete state with 4
counted probe failures and a successful online publish. -/
theorem onConnect_success_effects_witness :
    (systemOnConnect
        ⟨⟨false, true, 2, "err", 0, 0, "", true, "mic_monitor"⟩, 4⟩
        0 none).1.client.errorMessage = "" ∧
    (systemOnConnect
        ⟨⟨false, true, 2, "err", 0, 0, "", true, "mic_monitor"⟩, 4⟩
        0 none).1.probeFailures = 4 :=
  ⟨(onConnect_success_effects
      ⟨⟨false, true, 2, "err", 0, 0, "", true, "mic_monitor"⟩, 4⟩
      none).2.2.2.1 rfl,
   (onConnect_success_effects
      ⟨⟨false, true, 2, "err", 0, 0, "", true, "mic_monitor"⟩, 4⟩
      none).2.2.2.2.2⟩

/-- Claim C6: from every starting state, `disconnect()` attempts the
retained offline status publish exactly once and returns normally even when
that publish raises (the exception is caught and recorded); and it is
idempotent — calling it again from the resulting state (where the closed
transport's publish no longer raises) changes nothing. -/
theorem disconnect_offline_once_idempotent (cs : ClientState)
    (tr : TransportState) (offlinePubRaise : Option String) :
    (clientDisconnect cs tr offlinePubRaise).2.2 = 1 ∧
    clientDisconnect (clientDisconnect cs tr offlinePubRaise).1
        (clientDisconnect cs tr offlinePubRaise).2.1 none =
      ((clientDisconnect cs tr offlinePubRaise).1,
       (clientDisconnect cs tr offlinePubRaise).2.1, 1) := by
  obtain ⟨a, b, c, d, e, f, g, h, i⟩ := cs
  obtain ⟨u, v⟩ := tr
  cases offlinePubRaise <;> cases v <;>
    simp [clientDisconnect]

lemma digitChar_inj_lt {a b : Nat} (ha : a < 10) (hb : b < 10)
    (h : Nat.digitChar a = Nat.digitChar b) : a = b := by
  interval_cases a <;> interval_cases b <;> revert h <;> decide

lemma map_digitChar_inj : ∀ (l1 l2 : List Nat), (∀ x ∈ l1, x < 10) →
    (∀ x ∈ l2, x < 10) →
    l1.map Nat.digitChar = l2.map Nat.digitChar → l1 = l2
  | [], [], _, _, _ => rfl
  | [], _ :: _, _, _, h => by simp at h
  | _ :: _, [], _, _, h => by simp at h
  | a :: t1, b :: t2, h1, h2, h => by
    simp only [List.map_cons, List.cons.injEq] at h
    obtain rfl := digitChar_inj_lt (h1 a (by simp)) (h2 b (by simp)) h.1
    rw [map_digitChar_inj t1 t2 (fun x hx => h1 x (by simp [hx]))
      (fun x hx => h2 x (by simp [hx])) h.2]

lemma digits_rev_lt_ten (n : Nat) : ∀ x ∈ (Nat.digits 10 n).reverse, x < 10 := by
  intro x hx
  exact Nat.digits_lt_base (by norm_num) (List.mem_reverse.mp hx)

lemma digits_rev_inj {m n : Nat}
    (h : (Nat.digits 10 m).reverse = (Nat.digits 10 n).reverse) : m = n := by
  have h2 := List.reverse_injective h
  calc m = Nat.ofDigits 10 (Nat.digits 10 m) := (Nat.ofDigits_digits 10 m).symm
    _ = Nat.ofDigits 10 (Nat.digits 10 n) := by rw [h2]
    _ = n := Nat.ofDigits_digits 10 n

lemma chars_eq_zero_char_iff {n : Nat}
    (h : List.map Nat.digitChar (Nat.digits 10 n).reverse = ['0']) : n = 0 := by
  have h0 : List.map Nat.digitChar [0] = ['0'] := by decide
  have h1 : ([0] : List Nat) = (Nat.digits 10 n).reverse :=
    map_digitChar_inj [0] (Nat.digits 10 n).reverse (by simp)
      (digits_rev_lt_ten n) (h0.trans h.symm)
  have h2 : Nat.digits 10 n = [0] := by
    have := congrArg List.reverse h1
    simpa using this.symm
  have h3 := (Nat.ofDigits_digits 10 n).symm
  rw [h2] at h3
  simpa [Nat.ofDigits] using h3

lemma natToDecStr_inj {m n : Nat} (h : natToDecStr m = natToDecStr n) :
    m = n := by
  unfold natToDecStr at h
  by_cases hm : m = 0 <;> by_cases hn : n = 0
  · omega
  · exfalso
    rw [if_pos hm, if_neg hn] at h
    have hd : (["0".data.head!] : List Char) =
        List.map Nat.digitChar (Nat.digits 10 n).reverse := by
      have := congrArg String.data h
      simpa using this
    exact hn (chars_eq_zero_char_iff (by simpa using hd.symm))
  · exfalso
    rw [if_neg hm, if_pos hn] at h
    have hd : (["0".data.head!] : List Char) =
        List.map Nat.digitChar (Nat.digits 10 m).reverse := by
      have := congrArg String.data h.symm
      simpa using this
    exact hm (chars_eq_zero_char_iff (by simpa using hd.symm))
  · rw [if_neg hm, if_neg hn] at h
    have hd := congrArg String.data h
    simp only [] at hd
    exact digits_rev_inj (map_digitChar_inj _ _ (digits_rev_lt_ten m)
      (digits_rev_lt_ten n) hd)

lemma mkReconnectIdentity_ne_base (clientId : String) (now : Nat) :
    mkReconnectIdentity clientId now ≠ clientId := by
  intro h
  have hd := congrArg String.data h
  simp only [mkReconnectIdentity, String.data_append] at hd
  have hlen := congrArg List.length hd
  simp [List.length_append] at hlen

lemma mkReconnectIdentity_inj_time {clientId : String} {t t' : Nat}
    (h : mkReconnectIdentity clientId t = mkReconnectIdentity clientId t') :
    t = t' := by
  have hd := congrArg String.data h
  simp only [mkReconnectIdentity, String.data_append, List.append_assoc] at hd
  have h2 := List.append_cancel_left hd
  have h3 := List.append_cancel_left h2
  exact natToDecStr_inj (String.ext h3)

/-- Claim C3: on any status-probe iteration, if the consecutive
probe-failure counter has reached 3 or more, the externally visible
connected flag is cleared and the disconnect error is surfaced; and no
forced reconnection is triggered on an iteration whose counter is below
5. -/
theorem probeTick_debounce (sys : SystemState) (obs : ProbeObs)
    (clientId : String) (now : Nat) :
    (3 ≤ probeCountAfter sys.probeFailures obs →
      (probeTick sys obs clientId now).1.client.mqttConnected = false ∧
      "Disconnected from MQTT broker" ∈
        (probeTick sys obs clientId now).2.errors) ∧
    (probeCountAfter sys.probeFailures obs < 5 →
      (probeTick sys obs clientId now).2.reconnects = 0) := by
  constructor
  · intro h3
    simp only [probeTick]
    rw [if_pos h3]
    by_cases h5 : probeCountAfter sys.probeFailures obs = 5
    · rw [if_pos h5]
      simp [force_reconnection]
    · rw [if_neg h5]
      simp
  · intro h5
    simp only [probeTick]
    by_cases h3 : 3 ≤ probeCountAfter sys.probeFailures obs
    · rw [if_pos h3, if_neg (by omega : ¬ probeCountAfter sys.probeFailures obs = 5)]
    · rw [if_neg h3]

/-- Witness for `probeTick_debounce` at a concrete iteration: counter at 2,
transport reports not connected, so the counter reaches exactly 3 — the
connected flag is cleared, the error is surfaced, and no forced
reconnection happens. -/
theorem probeTick_debounce_witness :
    (probeTick ⟨⟨true, false, 0, "", 0, 0, "", true, "mic_monitor"⟩, 2⟩
        .notConnected "mic_monitor" 7).1.client.mqttConnected = false ∧
    "Disconnected from MQTT broker" ∈
      (probeTick ⟨⟨true, false, 0, "", 0, 0, "", true, "mic_monitor"⟩, 2⟩
        .notConnected "mic_monitor" 7).2.errors ∧
    (probeTick ⟨⟨true, false, 0, "", 0, 0, "", true, "mic_monitor"⟩, 2⟩
        .notConnected "mic_monitor" 7).2.reconnects = 0 :=
  ⟨((probeTick_debounce ⟨⟨true, false, 0, "", 0, 0, "", true, "mic_monitor"⟩, 2⟩
      .notConnected "mic_monitor" 7).1 (by decide)).1,
   ((probeTick_debounce ⟨⟨true, false, 0, "", 0, 0, "", true, "mic_monitor"⟩, 2⟩
      .notConnected "mic_monitor" 7).1 (by decide)).2,
   (probeTick_debounce ⟨⟨true, false, 0, "", 0, 0, "", true, "mic_monitor"⟩, 2⟩
      .notConnected "mic_monitor" 7).2 (by decide)⟩

/-- Claim C4: on the probe iteration where the consecutive probe-failure
counter reaches exactly 5, exactly one forced reconnection is invoked, the
counter is reset to 0 on that iteration, and the client identity after the
forced reconnection differs from the identity before it.  The identity
hypothesis records that the pre-tick identity is either the configured base
identity or a time-suffixed identity created at a different integer second
(forced reconnections are at least two probe periods apart, so their
`int(time.time())` values differ). -/
theorem probeTick_forced_reconnection (sys : SystemState) (obs : ProbeObs)
    (clientId : String) (now : Nat)
    (h5 : probeCountAfter sys.probeFailures obs = 5)
    (hid : sys.client.clientIdentity = clientId ∨
      ∃ t, t ≠ now ∧ sys.client.clientIdentity = mkReconnectIdentity clientId t) :
    (probeTick sys obs clientId now).2.reconnects = 1 ∧
    (probeTick sys obs clientId now).1.probeFailures = 0 ∧
    (probeTick sys obs clientId now).1.client.clientIdentity ≠
      sys.client.clientIdentity := by
  have h3 : 3 ≤ probeCountAfter sys.probeFailures obs := by omega
  refine ⟨?_, ?_, ?_⟩ <;> simp only [probeTick] <;> rw [if_pos h3, if_pos h5]
  show mkReconnectIdentity clientId now ≠ sys.client.clientIdentity
  rcases hid with h | ⟨t, ht, h⟩
  · rw [h]
    exact mkReconnectIdentity_ne_base clientId now
  · rw [h]
    intro he
    exact ht (mkReconnectIdentity_inj_time he).symm

/-- Witness for `probeTick_forced_reconnection` at a concrete iteration:
counter at 4 with a not-connected observation reaches exactly 5; the base
identity `mic_monitor` is replaced by a time-suffixed one. -/
theorem probeTick_forced_reconnection_witness :
    probeCountAfter 4 .notConnected = 5 ∧
    (probeTick ⟨⟨true, false, 0, "", 0, 0, "", true, "mic_monitor"⟩, 4⟩
        .notConnected "mic_monitor" 7).2.reconnects = 1 ∧
    (probeTick ⟨⟨true, false, 0, "", 0, 0, "", true, "mic_monitor"⟩, 4⟩
        .notConnected "mic_monitor" 7).1.probeFailures = 0 ∧
    (probeTick ⟨⟨true, false, 0, "", 0, 0, "", true, "mic_monitor"⟩, 4⟩
        .notConnected "mic_monitor" 7).1.client.clientIdentity ≠
      "mic_monitor" :=
  ⟨by decide,
   probeTick_forced_reconnection
     ⟨⟨true, false, 0, "", 0, 0, "", true, "mic_monitor"⟩, 4⟩
     .notConnected "mic_monitor" 7 (by decide) (Or.inl rfl)⟩

lemma recordReadErrors_leftLast (st : MonitorState) (lerr rerr : Option String) :
    (recordReadErrors st lerr rerr).leftLast = st.leftLast := by
  cases lerr <;> cases rerr <;> rfl

lemma recordReadErrors_rightLast (st : MonitorState) (lerr rerr : Option String) :
    (recordReadErrors st lerr rerr).rightLast = st.rightLast := by
  cases lerr <;> cases rerr <;> rfl

lemma shouldPublish_iff (a lastState : Nat) :
    shouldPublish a lastState = true ↔ (a ≠ lastState ∨ a = 1) := by
  simp [shouldPublish, Bool.or_eq_true, bne_iff_ne, beq_iff_eq]

lemma monitorTick_sleep (st : MonitorState) (inp : TickInput)
    (threshold checkInterval : ℚ) (lt rt : String) (now : ℚ)
    (hexn : inp.exn = none) :
    (monitorTick st inp threshold checkInterval lt rt now).2.2 =
      checkInterval := by
  simp only [monitorTick, hexn]
  by_cases hc : inp.connected <;> simp [hc]

lemma monitorTick_any_left (st : MonitorState) (inp : TickInput)
    (threshold checkInterval : ℚ) (lt rt : String) (now : ℚ)
    (hexn : inp.exn = none) (hc : inp.connected = true) (hne : lt ≠ rt) :
    ((monitorTick st inp threshold checkInterval lt rt now).2.1.any
        fun m => m.topic == lt) =
      shouldPublish (micActive (readMicLevel inp.leftRead).1 threshold)
        st.leftLast := by
  have hrt : (rt == lt) = false := beq_eq_false_iff_ne.mpr (Ne.symm hne)
  simp only [monitorTick, hexn, hc, recordReadErrors_leftLast,
    recordReadErrors_rightLast, if_true]
  by_cases hl : shouldPublish (micActive (readMicLevel inp.leftRead).1 threshold)
      st.leftLast <;>
    by_cases hr : shouldPublish (micActive (readMicLevel inp.rightRead).1 threshold)
        st.rightLast <;>
      simp [hl, hr, hrt]

lemma monitorTick_any_right (st : MonitorState) (inp : TickInput)
    (threshold checkInterval : ℚ) (lt rt : String) (now : ℚ)
    (hexn : inp.exn = none) (hc : inp.connected = true) (hne : lt ≠ rt) :
    ((monitorTick st inp threshold checkInterval lt rt now).2.1.any
        fun m => m.topic == rt) =
      shouldPublish (micActive (readMicLevel inp.rightRead).1 threshold)
        st.rightLast := by
  have hlt : (lt == rt) = false := beq_eq_false_iff_ne.mpr hne
  simp only [monitorTick, hexn, hc, recordReadErrors_leftLast,
    recordReadErrors_rightLast, if_true]
  by_cases hl : shouldPublish (micActive (readMicLevel inp.leftRead).1 threshold)
      st.leftLast <;>
    by_cases hr : shouldPublish (micActive (readMicLevel inp.rightRead).1 threshold)
        st.rightLast <;>
      simp [hl, hr, hlt]

lemma monitorTick_any_left_of_should (st : MonitorState) (inp : TickInput)
    (threshold checkInterval : ℚ) (lt rt : String) (now : ℚ)
    (hexn : inp.exn = none) (hc : inp.connected = true)
    (hdec : shouldPublish (micActive (readMicLevel inp.leftRead).1 threshold)
      st.leftLast = true) :
    ((monitorTick st inp threshold checkInterval lt rt now).2.1.any
        fun m => m.topic == lt) = true := by
  simp only [monitorTick, hexn, hc, recordReadErrors_leftLast,
    recordReadErrors_rightLast, if_true]
  by_cases hr : shouldPublish (micActive (readMicLevel inp.rightRead).1 threshold)
      st.rightLast <;>
    simp [hdec, hr]

lemma monitorTick_leftLast (st : MonitorState) (inp : TickInput)
    (threshold checkInterval : ℚ) (lt rt : String) (now : ℚ)
    (hexn : inp.exn = none) (hc : inp.connected = true) :
    (monitorTick st inp threshold checkInterval lt rt now).1.leftLast =
      if shouldPublish (micActive (readMicLevel inp.leftRead).1 threshold)
          st.leftLast
        then micActive (readMicLevel inp.leftRead).1 threshold
        else st.leftLast := by
  simp only [monitorTick, hexn, hc, recordReadErrors_leftLast,
    recordReadErrors_rightLast, if_true]

lemma monitorTick_rightLast (st : MonitorState) (inp : TickInput)
    (threshold checkInterval : ℚ) (lt rt : String) (now : ℚ)
    (hexn : inp.exn = none) (hc : inp.connected = true) :
    (monitorTick st inp threshold checkInterval lt rt now).1.rightLast =
      if shouldPublish (micActive (readMicLevel inp.rightRead).1 threshold)
          st.rightLast
        then micActive (readMicLevel inp.rightRead).1 threshold
        else st.rightLast := by
  simp only [monitorTick, hexn, hc, recordReadErrors_leftLast,
    recordReadErrors_rightLast, if_true]

lemma monitorTick_not_connected (st : MonitorState) (inp : TickInput)
    (threshold checkInterval : ℚ) (lt rt : String) (now : ℚ)
    (hexn : inp.exn = none) (hc : inp.connected = false) :
    (monitorTick st inp threshold checkInterval lt rt now).2.1 = [] ∧
    (monitorTick st inp threshold checkInterval lt rt now).1.leftLast =
      st.leftLast ∧
    (monitorTick st inp threshold checkInterval lt rt now).1.rightLast =
      st.rightLast := by
  simp only [monitorTick, hexn, hc]
  simp [recordReadErrors_leftLast, recordReadErrors_rightLast]

/-- Claim C1: on every monitoring-loop tick that runs the publish decision
(normal path, connected), a channel message is attempted for a channel iff
its current active reading differs from its last-published state or the
reading is active; in particular nothing is published for a channel whose
reading and last-published state are both inactive; and whenever the
decision fires, the last-published state is set to the current reading —
the tick takes no acknowledgment input, so this holds regardless of the
publish outcome. -/
theorem monitorTick_publish_iff (st : MonitorState) (inp : TickInput)
    (threshold checkInterval : ℚ) (lt rt : String) (now : ℚ)
    (hne : lt ≠ rt) (hexn : inp.exn = none) (hc : inp.connected = true) :
    (((monitorTick st inp threshold checkInterval lt rt now).2.1.any
        fun m => m.topic == lt) = true ↔
      (micActive (readMicLevel inp.leftRead).1 threshold ≠ st.leftLast ∨
       micActive (readMicLevel inp.leftRead).1 threshold = 1)) ∧
    (((monitorTick st inp threshold checkInterval lt rt now).2.1.any
        fun m => m.topic == rt) = true ↔
      (micActive (readMicLevel inp.rightRead).1 threshold ≠ st.rightLast ∨
       micActive (readMicLevel inp.rightRead).1 threshold = 1)) ∧
    (micActive (readMicLevel inp.leftRead).1 threshold = 0 →
      st.leftLast = 0 →
      ((monitorTick st inp threshold checkInterval lt rt now).2.1.any
        fun m => m.topic == lt) = false) ∧
    (micActive (readMicLevel inp.rightRead).1 threshold = 0 →
      st.rightLast = 0 →
      ((monitorTick st inp threshold checkInterval lt rt now).2.1.any
        fun m => m.topic == rt) = false) ∧
    ((micActive (readMicLevel inp.leftRead).1 threshold ≠ st.leftLast ∨
      micActive (readMicLevel inp.leftRead).1 threshold = 1) →
      (monitorTick st inp threshold checkInterval lt rt now).1.leftLast =
        micActive (readMicLevel inp.leftRead).1 threshold) ∧
    (¬ (micActive (readMicLevel inp.leftRead).1 threshold ≠ st.leftLast ∨
        micActive (readMicLevel inp.leftRead).1 threshold = 1) →
      (monitorTick st inp threshold checkInterval lt rt now).1.leftLast =
        st.leftLast) ∧
    ((micActive (readMicLevel inp.rightRead).1 threshold ≠ st.rightLast ∨
      micActive (readMicLevel inp.rightRead).1 threshold = 1) →
      (monitorTick st inp threshold checkInterval lt rt now).1.rightLast =
        micActive (readMicLevel inp.rightRead).1 threshold) ∧
    (¬ (micActive (readMicLevel inp.rightRead).1 threshold ≠ st.rightLast ∨
        micActive (readMicLevel inp.rightRead).1 threshold = 1) →
      (monitorTick st inp threshold checkInterval lt rt now).1.rightLast =
        st.rightLast) := by
  have hL := monitorTick_any_left st inp threshold checkInterval lt rt now
    hexn hc hne
  have hR := monitorTick_any_right st inp threshold checkInterval lt rt now
    hexn hc hne
  have hLL := monitorTick_leftLast st inp threshold checkInterval lt rt now
    hexn hc
  have hRL := monitorTick_rightLast st inp threshold checkInterval lt rt now
    hexn hc
  refine ⟨?_, ?_, ?_, ?_, ?_, ?_, ?_, ?_⟩
  · rw [hL, shouldPublish_iff]
  · rw [hR, shouldPublish_iff]
  · intro h0 hlast
    rw [hL, h0, hlast]
    decide
  · intro h0 hlast
    rw [hR, h0, hlast]
    decide
  · intro hdec
    rw [hLL, if_pos ((shouldPublish_iff _ _).mpr hdec)]
  · intro hdec
    rw [hLL, if_neg (fun h => hdec ((shouldPublish_iff _ _).mp h))]
  · intro hdec
    rw [hRL, if_pos ((shouldPublish_iff _ _).mpr hdec)]
  · intro hdec
    rw [hRL, if_neg (fun h => hdec ((shouldPublish_iff _ _).mp h))]

/-- Witness for `monitorTick_publish_iff` at a concrete connected tick with
threshold 500 and a left reading of 600 (active, previously inactive): the
left channel message is attempted and the left last-published state becomes
1. -/
theorem monitorTick_publish_iff_witness :
    ((monitorTick ⟨0, 0, ""⟩ ⟨true, .ok 600, .ok 100, none⟩ 500 (1/5)
        "microphones/left" "microphones/right" 2).2.1.any
      fun m => m.topic == "microphones/left") = true ∧
    (monitorTick ⟨0, 0, ""⟩ ⟨true, .ok 600, .ok 100, none⟩ 500 (1/5)
        "microphones/left" "microphones/right" 2).1.leftLast =
      micActive (readMicLevel (Except.ok 600 : Except String ℚ)).1 500 :=
  ⟨(monitorTick_publish_iff ⟨0, 0, ""⟩ ⟨true, .ok 600, .ok 100, none⟩ 500
      (1/5) "microphones/left" "microphones/right" 2 (by decide) rfl rfl).1.mpr
      (Or.inr (by decide)),
   (monitorTick_publish_iff ⟨0, 0, ""⟩ ⟨true, .ok 600, .ok 100, none⟩ 500
      (1/5) "microphones/left" "microphones/right" 2 (by decide) rfl
      rfl).2.2.2.2.1 (Or.inr (by decide))⟩

lemma monitorTick_any_right_of_should (st : MonitorState) (inp : TickInput)
    (threshold checkInterval : ℚ) (lt rt : String) (now : ℚ)
    (hexn : inp.exn = none) (hc : inp.connected = true)
    (hdec : shouldPublish (micActive (readMicLevel inp.rightRead).1 threshold)
      st.rightLast = true) :
    ((monitorTick st inp threshold checkInterval lt rt now).2.1.any
        fun m => m.topic == rt) = true := by
  simp only [monitorTick, hexn, hc, recordReadErrors_leftLast,
    recordReadErrors_rightLast, if_true]
  by_cases hl : shouldPublish (micActive (readMicLevel inp.leftRead).1 threshold)
      st.leftLast <;>
    simp [hdec, hl]

/-- Claim C9: on a monitoring-loop tick where the connected flag is false,
no channel message is attempted and both per-channel last-published states
are unchanged; consequently, on any later tick that is connected and whose
current reading differs from the (still unchanged) last-published state,
the channel's message is attempted. -/
theorem monitorTick_disconnected_frame (st : MonitorState) (inp : TickInput)
    (threshold checkInterval : ℚ) (lt rt : String) (now : ℚ)
    (hexn : inp.exn = none) (hc : inp.connected = false) :
    (monitorTick st inp threshold checkInterval lt rt now).2.1 = [] ∧
    (monitorTick st inp threshold checkInterval lt rt now).1.leftLast =
      st.leftLast ∧
    (monitorTick st inp threshold checkInterval lt rt now).1.rightLast =
      st.rightLast ∧
    (∀ (st2 : MonitorState) (inp2 : TickInput) (now2 : ℚ),
      inp2.exn = none → inp2.connected = true →
      micActive (readMicLevel inp2.leftRead).1 threshold ≠ st2.leftLast →
      ((monitorTick st2 inp2 threshold checkInterval lt rt now2).2.1.any
        fun m => m.topic == lt) = true) ∧
    (∀ (st2 : MonitorState) (inp2 : TickInput) (now2 : ℚ),
      inp2.exn = none → inp2.connected = true →
      micActive (readMicLevel inp2.rightRead).1 threshold ≠ st2.rightLast →
      ((monitorTick st2 inp2 threshold checkInterval lt rt now2).2.1.any
        fun m => m.topic == rt) = true) := by
  refine ⟨(monitorTick_not_connected st inp threshold checkInterval lt rt now
      hexn hc).1,
    (monitorTick_not_connected st inp threshold checkInterval lt rt now
      hexn hc).2.1,
    (monitorTick_not_connected st inp threshold checkInterval lt rt now
      hexn hc).2.2, ?_, ?_⟩
  · intro st2 inp2 now2 h2 h2c hchange
    exact monitorTick_any_left_of_should st2 inp2 threshold checkInterval
      lt rt now2 h2 h2c ((shouldPublish_iff _ _).mpr (Or.inl hchange))
  · intro st2 inp2 now2 h2 h2c hchange
    exact monitorTick_any_right_of_should st2 inp2 threshold checkInterval
      lt rt now2 h2 h2c ((shouldPublish_iff _ _).mpr (Or.inl hchange))

/-- Witness for `monitorTick_disconnected_frame` at a concrete disconnected
tick with an active left reading: nothing is attempted and the left
last-published state stays 0. -/
theorem monitorTick_disconnected_frame_witness :
    (monitorTick ⟨0, 0, ""⟩ ⟨false, .ok 600, .ok 100, none⟩ 500 (1/5)
        "microphones/left" "microphones/right" 2).2.1 = [] ∧
    (monitorTick ⟨0, 0, ""⟩ ⟨false, .ok 600, .ok 100, none⟩ 500 (1/5)
        "microphones/left" "microphones/right" 2).1.leftLast = 0 :=
  ⟨(monitorTick_disconnected_frame ⟨0, 0, ""⟩ ⟨false, .ok 600, .ok 100, none⟩
      500 (1/5) "microphones/left" "microphones/right" 2 rfl rfl).1,
   (monitorTick_disconnected_frame ⟨0, 0, ""⟩ ⟨false, .ok 600, .ok 100, none⟩
      500 (1/5) "microphones/left" "microphones/right" 2 rfl rfl).2.1⟩

/-- Claim C7 counterexample: a tick whose left capture read fails does NOT
wait 1 second before the next tick.  The read failure is caught inside
`read_mic_level`, which records the error and returns level 0, so the loop
body does not raise and the tick ends with the configured check interval
(here 1/5 s), not the 1-second error cool-down the claim asserts. -/
theorem captureError_cooldown_counterexample :
    monitorTick ⟨0, 0, ""⟩ ⟨true, .error "boom", .ok 0, none⟩ 500 (1/5)
        "microphones/left" "microphones/right" 0 =
      (⟨0, 0, "Error reading microphone data: boom"⟩, [], 1/5) ∧
    ((1 : ℚ)/5) ≠ 1 := by
  constructor
  · rfl
  · norm_num

/-- Claim C7 (amended): on every tick where reading a channel's level
fails, that channel's level defaults to 0 and the channel is reported
inactive for the tick (for a non-negative threshold), the error is recorded
in the externally visible error message, and the loop continues with the
configured check-interval delay; the 1-second cool-down applies only to
ticks whose loop body itself raises an exception (capture read failures are
caught inside `read_mic_level` and never do). -/
theorem captureError_tick_behavior (st : MonitorState) (conn : Bool)
    (e : String) (rl : ℚ) (threshold checkInterval : ℚ) (lt rt : String)
    (now : ℚ) (hthr : 0 ≤ threshold) :
    (readMicLevel (Except.error e : Except String ℚ)).1 = 0 ∧
    micActive (readMicLevel (Except.error e : Except String ℚ)).1 threshold = 0 ∧
    (monitorTick st ⟨conn, .error e, .ok rl, none⟩ threshold checkInterval
        lt rt now).1.errorMessage =
      "Error reading microphone data: " ++ e ∧
    (monitorTick st ⟨conn, .error e, .ok rl, none⟩ threshold checkInterval
        lt rt now).2.2 = checkInterval ∧
    (∀ (e2 : String) (inp2 : TickInput), inp2.exn = some e2 →
      (monitorTick st inp2 threshold checkInterval lt rt now).2.2 = 1) := by
  have hlt : ¬ ((0 : ℚ) > threshold) := not_lt.mpr hthr
  refine ⟨rfl, ?_, ?_, ?_, ?_⟩
  · simp [micActive, readMicLevel, hlt]
  · cases conn <;> simp [monitorTick, recordReadErrors, readMicLevel]
  · cases conn <;> simp [monitorTick]
  · intro e2 inp2 h2
    simp [monitorTick, h2]

/-- Witness for `captureError_tick_behavior` at threshold 500: the failing
left channel is inactive with level 0, the error is recorded, and the tick
sleeps the 1/5 s check interval. -/
theorem captureError_tick_behavior_witness :
    micActive (readMicLevel (Except.error "boom" : Except String ℚ)).1 500 = 0 ∧
    (monitorTick ⟨0, 0, ""⟩ ⟨true, .error "boom", .ok 0, none⟩ 500 (1/5)
        "microphones/left" "microphones/right" 0).2.2 = 1/5 :=
  ⟨(captureError_tick_behavior ⟨0, 0, ""⟩ true "boom" 0 500 (1/5)
      "microphones/left" "microphones/right" 0 (by norm_num)).2.1,
   (captureError_tick_behavior ⟨0, 0, ""⟩ true "boom" 0 500 (1/5)
      "microphones/left" "microphones/right" 0 (by norm_num)).2.2.2.1⟩

/-- Claim C8: serializing a channel-message payload `{state, level,
timestamp}` and parsing it back yields exactly the state and level (and
timestamp) that were published, and payloads stamped at non-decreasing
clock readings carry non-decreasing timestamps. -/
theorem micPayload_roundtrip (state : Nat) (level ts : ℚ) (state2 : Nat)
    (level2 ts2 : ℚ) (hts : ts ≤ ts2) :
    parseMicPayload (micPayload state level ts) =
      some ((state : ℚ), level, ts) ∧
    micPayloadTimestamp (micPayload state level ts) ≤
      micPayloadTimestamp (micPayload state2 level2 ts2) := by
  constructor
  · rfl
  · exact hts

/-- Witness for `micPayload_roundtrip` at a concrete pair of publishes with
clock readings 1 and 2. -/
theorem micPayload_roundtrip_witness :
    parseMicPayload (micPayload 1 600 1) = some ((1 : ℚ), 600, 1) ∧
    micPayloadTimestamp (micPayload 1 600 1) ≤
      micPayloadTimestamp (micPayload 0 100 2) :=
  micPayload_roundtrip 1 600 1 0 100 2 (by norm_num)
